import Mathlib

/-
Shallow embedding of src/main.py (a Discord bot selling files unlocked by
Roblox game-pass purchases).  The verification core consists of:
  - check_gamepass_ownership (src/main.py lines 73-97)
  - get_user_id_from_username (src/main.py lines 55-70)
  - PurchaseConfirmView.bought_button (src/main.py lines 158-229)
  - PurchaseConfirmView.cancel_button (src/main.py lines 231-241)
  - ItemSelectView.select_callback (src/main.py lines 119-146)
External HTTP responses, the message-wait outcome and the possibility of an
unexpected exception are supplied as an explicit environment; messages sent
to the buyer are reified as a list of effects.
-/

/-- JSON scalar as it matters here: Python `str()` normalization is applied to
the `gamePassId` field, which the platform may encode as a number or a string
(`gamepass.get` yields `None` when the key is absent). -/
inductive PyVal where
  | vInt : Int → PyVal
  | vStr : String → PyVal
  | vNone : PyVal
deriving DecidableEq

/-- Python `str()` on the values above. -/
def pyStr : PyVal → String
  | .vInt n => toString n
  | .vStr s => s
  | .vNone => "None"

/-- Response of the game-pass listing endpoint: a transport failure
(`requests.exceptions.RequestException`), or a JSON body whose `gamePasses`
key is absent (`payload none`) or holds a list of `gamePassId` values. -/
inductive GamePassResponse where
  | transportError : GamePassResponse
  | payload : Option (List PyVal) → GamePassResponse
deriving DecidableEq

/-- Embedding of `check_gamepass_ownership` (src/main.py lines 73-97): scans
the single response for an entry whose `str(gamePassId)` equals
`str(gamepass_id)`; transport errors and a missing `gamePasses` key give
`False`. -/
def check_gamepass_ownership (resp : GamePassResponse) (gamepass_id : PyVal) : Bool :=
  match resp with
  | .transportError => false
  | .payload none => false
  | .payload (some passes) => passes.any (fun gp => pyStr gp == pyStr gamepass_id)

/-- Page-size parameter hard-coded in the single listing request URL
(`?count=100`, src/main.py line 75). -/
def listingPageSize : Nat := 100

/-- Number of listing HTTP requests one ownership check issues: the function
body performs exactly one `requests.get` and never follows a cursor. -/
def listingRequestCount : Nat := 1

/-- The response the platform serves for the one `count=100` request when the
account's full owned list is `owned`: the first `listingPageSize` entries. -/
def firstPageResponse (owned : List PyVal) : GamePassResponse :=
  .payload (some (owned.take listingPageSize))

/-- One ownership check as the code performs it, expressed against the
account's full owned list: only the first page is ever fetched and scanned. -/
def check_ownership_via_first_page (owned : List PyVal) (id : PyVal) : Bool :=
  check_gamepass_ownership (firstPageResponse owned) id

/-- Response of the username-resolution endpoint: a transport failure, or a
JSON body whose `data` key is absent or holds a list of account ids. -/
inductive UsersResponse where
  | transportError : UsersResponse
  | payload : Option (List Nat) → UsersResponse
deriving DecidableEq

/-- Embedding of `get_user_id_from_username` (src/main.py lines 55-70):
returns the first id of a non-empty `data` array, `none` on an empty or
missing array or any transport failure. -/
def get_user_id_from_username (resp : UsersResponse) : Option Nat :=
  match resp with
  | .transportError => none
  | .payload none => none
  | .payload (some []) => none
  | .payload (some (i :: _)) => some i

/-- Python truthiness of the resolved id as used by `if not user_id:`
(src/main.py line 184): `None` and `0` are both falsy. -/
def pyFalsy : Option Nat → Bool
  | none => true
  | some n => n == 0

/-- A catalog item (`items_data.json` entry). -/
structure Item where
  name : String
  file_url : String
  gamepass_id : PyVal
deriving DecidableEq

/-- State of a `PurchaseConfirmView` (src/main.py lines 150-156):
`is_processing` is the single-flight flag, `childrenDisabled` records whether
the two buttons have been disabled. -/
structure ConfirmView where
  item : Item
  userId : Nat
  is_processing : Bool
  childrenDisabled : Bool
deriving DecidableEq

/-- Messages the handlers send, in order. -/
inductive Effect where
  | notForYou : Effect
  | alreadyProcessing : Effect
  | verifyingNotice : Effect
  | askUsernameNotice : Effect
  | resolveFailNotice : Effect
  | progressNotice : Nat → Effect
  | verifiedNotice : String → Effect
  | fileDelivery : String → Effect
  | verificationFailedNotice : Effect
  | timeoutNotice : Effect
  | errorNotice : Effect
  | cancelledNotice : Effect
  | itemNotFoundNotice : Effect
  | purchasePrompt : PyVal → Effect
deriving DecidableEq

/-- Recognizes the delivery send (`interaction.followup.send(self.item['file_url'])`,
src/main.py line 206). -/
def isFileDelivery : Effect → Bool
  | .fileDelivery _ => true
  | _ => false

/-- Embedding of the retry loop body (src/main.py lines 191-202), recursing on
the remaining fuel (`5 - attempt`).  `check n` is the boolean result of the
`n`-th ownership-check call (0-indexed `attempt`).  Returns
(verified, number of ownership-check calls made, progress notices emitted). -/
def verifyLoopAux (check : Nat → Bool) : Nat → Nat → Bool × Nat × List Effect
  | 0, _ => (false, 0, [])
  | fuel + 1, attempt =>
    if check attempt then (true, 1, [])
    else
      let rest := verifyLoopAux check fuel (attempt + 1)
      (rest.1, rest.2.1 + 1,
        (if attempt < 4 then [Effect.progressNotice (attempt + 1)] else []) ++ rest.2.2)

/-- The full retry loop: `for attempt in range(5)` starting at attempt 0. -/
def verifyLoop (check : Nat → Bool) : Bool × Nat × List Effect :=
  verifyLoopAux check 5 0

/-- Outcome of the `bot.wait_for('message', timeout=60.0, ...)` suspension. -/
inductive WaitOutcome where
  | timedOut : WaitOutcome
  | message : String → WaitOutcome
deriving DecidableEq

/-- Environment of one verification run: the wait outcome, the two endpoints'
responses (one listing response per retry attempt), and whether the `try`
body raises an unexpected exception (the `except Exception` path,
src/main.py lines 225-227). -/
structure Env where
  wait : WaitOutcome
  usersResp : UsersResponse
  passResp : Nat → GamePassResponse
  unexpectedError : Bool

/-- Exit classification of one `bought_button` invocation. -/
inductive Outcome where
  | rejected : Outcome
  | delivered : Outcome
  | failed : Outcome
  | timedOut : Outcome
  | errored : Outcome
deriving DecidableEq

/-- Result of one `bought_button` invocation: final view state, messages sent,
number of ownership-check calls made, exit classification. -/
structure RunResult where
  view : ConfirmView
  effects : List Effect
  checkCalls : Nat
  outcome : Outcome
deriving DecidableEq

/-- Embedding of the `try ... finally` body of `bought_button`
(src/main.py lines 176-229), entered with `is_processing` already set.
Every branch ends with `is_processing := false` because the Python
`finally:` clause (line 228-229) runs on every exit path. -/
def bought_run (v : ConfirmView) (env : Env) : RunResult :=
  if env.unexpectedError then
    ⟨{ v with is_processing := false }, [.errorNotice], 0, .errored⟩
  else
    match env.wait with
    | .timedOut => ⟨{ v with is_processing := false }, [.timeoutNotice], 0, .timedOut⟩
    | .message _username =>
      let user_id := get_user_id_from_username env.usersResp
      if pyFalsy user_id then
        ⟨{ v with is_processing := false }, [.resolveFailNotice], 0, .failed⟩
      else
        let r := verifyLoop (fun n => check_gamepass_ownership (env.passResp n) v.item.gamepass_id)
        if r.1 then
          ⟨{ v with is_processing := false, childrenDisabled := true },
            r.2.2 ++ [.verifiedNotice v.item.name, .fileDelivery v.item.file_url],
            r.2.1, .delivered⟩
        else
          ⟨{ v with is_processing := false },
            r.2.2 ++ [.verificationFailedNotice], r.2.1, .failed⟩

/-- Synchronous prefix of `bought_button` up to its first `await`
(src/main.py lines 160-171): the authorization check, the single-flight
check, and setting `self.is_processing = True`.  `none` means the run was
not started. -/
def bought_guard (v : ConfirmView) (uid : Nat) : Option ConfirmView × List Effect :=
  if uid ≠ v.userId then (none, [.notForYou])
  else if v.is_processing then (none, [.alreadyProcessing])
  else (some { v with is_processing := true }, [.verifyingNotice, .askUsernameNotice])

/-- Embedding of the whole `bought_button` handler (src/main.py lines 158-229). -/
def bought_button (v : ConfirmView) (uid : Nat) (env : Env) : RunResult :=
  match bought_guard v uid with
  | (none, effs) => ⟨v, effs, 0, .rejected⟩
  | (some v1, effs) =>
    let r := bought_run v1 env
    ⟨r.view, effs ++ r.effects, r.checkCalls, r.outcome⟩

/-- Embedding of `cancel_button` (src/main.py lines 231-241): authorization
check, then the cancellation notice and disabling the children.  It reads no
other state and touches neither `is_processing` nor the item. -/
def cancel_button (v : ConfirmView) (uid : Nat) : ConfirmView × List Effect :=
  if uid ≠ v.userId then (v, [.notForYou])
  else ({ v with childrenDisabled := true }, [.cancelledNotice])

/-- Construction of the confirmation view done by `select_callback`
(src/main.py line 137): fresh session with the flag clear and buttons live. -/
def mkConfirmView (item : Item) (userId : Nat) : ConfirmView :=
  ⟨item, userId, false, false⟩

/-- Embedding of `ItemSelectView.select_callback` (src/main.py lines 119-146):
authorization check, catalog lookup by name, then the purchase prompt with a
fresh confirmation view. -/
def select_callback (ownerId uid : Nat) (items : List Item) (selected : String) :
    Option ConfirmView × List Effect :=
  if uid ≠ ownerId then (none, [.notForYou])
  else
    match items.find? (fun i => i.name == selected) with
    | none => (none, [.itemNotFoundNotice])
    | some item => (some (mkConfirmView item ownerId), [.purchasePrompt item.gamepass_id])

/-- Sample item from the spec's end-to-end scenario. -/
def exampleItem : Item :=
  ⟨"Skin A", "https://files/skinA", .vStr "999"⟩

/-- Fresh confirmation view for the sample item, buyer identity 1. -/
def exampleView : ConfirmView :=
  mkConfirmView exampleItem 1

/-- Listing responses realizing the check sequence NotOwned, NotOwned, Owned
(the third response carries the pass with a numeric id, matching the view's
string-encoded id after normalization). -/
def examplePassResp : Nat → GamePassResponse :=
  fun n => if n = 2 then .payload (some [.vInt 999]) else .payload (some [])

/-- Environment for the end-to-end scenario: the buyer answers "Bob", which
resolves to account id 123, and the checks go NotOwned, NotOwned, Owned. -/
def exampleEnv : Env :=
  ⟨.message "Bob", .payload (some [123]), examplePassResp, false⟩

/-- Environment in which every ownership check reports NotOwned. -/
def failEnv : Env :=
  ⟨.message "Bob", .payload (some [123]), fun _ => .payload (some []), false⟩

/-- The example view while its verification run is in flight. -/
def midRunView : ConfirmView :=
  { exampleView with is_processing := true }

/-- Boolean check sequence NotOwned, NotOwned, Owned, used standalone. -/
def exampleCheck : Nat → Bool :=
  fun n => n == 2

/-- An account owning 101 passes where only the 101st matches id 999: the
match lies beyond the single fetched page. -/
def beyondPageList : List PyVal :=
  List.replicate 100 (.vInt 0) ++ [.vInt 999]

/-! ### Helper lemmas -/

/-- The retry loop never makes more calls than it has fuel. -/
theorem verifyLoopAux_calls_le (check : Nat → Bool) :
    ∀ fuel attempt, (verifyLoopAux check fuel attempt).2.1 ≤ fuel := by
  intro fuel
  induction fuel with
  | zero => intro attempt; simp [verifyLoopAux]
  | succ n ih =>
    intro attempt
    simp only [verifyLoopAux]
    split
    · simp
    · simpa using Nat.succ_le_succ (ih (attempt + 1))

/-- If the first true check at or after `attempt` is at index `k`, and the
fuel reaches `k`, the loop succeeds after exactly `k - attempt + 1` calls. -/
theorem verifyLoopAux_first_true (check : Nat → Bool) :
    ∀ fuel attempt k, attempt ≤ k → k < attempt + fuel →
      (∀ j, attempt ≤ j → j < k → check j = false) → check k = true →
      (verifyLoopAux check fuel attempt).1 = true ∧
      (verifyLoopAux check fuel attempt).2.1 = k - attempt + 1 := by
  intro fuel
  induction fuel with
  | zero => intro attempt k h1 h2; omega
  | succ n ih =>
    intro attempt k h1 h2 hbefore hk
    simp only [verifyLoopAux]
    by_cases hc : check attempt
    · have : attempt = k := by
        by_contra hne
        have hlt : attempt < k := Nat.lt_of_le_of_ne h1 hne
        have := hbefore attempt (Nat.le_refl _) hlt
        simp [this] at hc
      subst this
      simp [hc]
    · have hcf : check attempt = false := by
        revert hc; cases check attempt <;> simp
      have hlt : attempt < k := by
        rcases Nat.lt_or_ge attempt k with h | h
        · exact h
        · have : attempt = k := Nat.le_antisymm h1 h
          subst this; simp [hk] at hcf
      have ihres := ih (attempt + 1) k hlt (by omega)
        (fun j hj1 hj2 => hbefore j (by omega) hj2) hk
      simp only [hcf, Bool.false_eq_true, if_false]
      rw [ihres.2]
      exact ⟨ihres.1, by omega⟩

/-- The loop emits only progress notices: no delivery effect. -/
theorem verifyLoopAux_no_delivery (check : Nat → Bool) :
    ∀ fuel attempt, (verifyLoopAux check fuel attempt).2.2.filter isFileDelivery = [] := by
  intro fuel
  induction fuel with
  | zero => intro attempt; simp [verifyLoopAux]
  | succ n ih =>
    intro attempt
    simp only [verifyLoopAux]
    split
    · simp
    · simp only [List.filter_append, ih (attempt + 1), List.append_nil]
      split <;> simp [isFileDelivery]

/-! ### Claim theorems -/

/-- C4: `check_gamepass_ownership` returns Owned (true) exactly when some
listed entry's identifier, normalized by Python `str()`, equals the `str()`
form of the requested identifier (either side may be a number or a string);
a transport failure of the single call and a response lacking the
`gamePasses` list both yield NotOwned (false), not a distinct error. -/
theorem check_gamepass_ownership_spec :
    (∀ (l : List PyVal) (id : PyVal),
        check_gamepass_ownership (.payload (some l)) id = true ↔
          ∃ gp ∈ l, pyStr gp = pyStr id) ∧
    (∀ id, check_gamepass_ownership .transportError id = false) ∧
    (∀ id, check_gamepass_ownership (.payload none) id = false) ∧
    check_gamepass_ownership (.payload (some [.vInt 999])) (.vStr "999") = true ∧
    check_gamepass_ownership (.payload (some [.vStr "999"])) (.vInt 999) = true := by
  refine ⟨?_, fun _ => rfl, fun _ => rfl, by decide, by decide⟩
  intro l id
  simp [check_gamepass_ownership, List.any_eq_true]

/-- C3: every exit path of a verification run — delivery, verification
failure, unresolvable username, message-wait timeout, or an unexpected
exception — clears the processing flag before the run ends (the Python
`finally:` clause), so no exit leaves the flag stuck true. -/
theorem bought_run_clears_flag (v : ConfirmView) (env : Env) :
    (bought_run v env).view.is_processing = false := by
  unfold bought_run
  rcases env with ⟨w, ur, pr, ue⟩
  cases ue
  · cases w
    · simp
    · simp only [Bool.false_eq_true, if_false]
      split
      · simp
      · split <;> simp
  · simp

/-- C1: for every sequence of ownership-check results, the retry loop makes
at most 5 ownership-check calls and terminates with Owned immediately after
the first call that returns Owned, making no further calls; in particular a
result sequence NotOwned, NotOwned, Owned causes exactly 3 calls and, within
a full run, a Delivered outcome. -/
theorem verifyLoop_retry_policy :
    (∀ check : Nat → Bool, (verifyLoop check).2.1 ≤ 5) ∧
    (∀ (check : Nat → Bool) (k : Nat), k < 5 → check k = true →
        (∀ j, j < k → check j = false) →
        (verifyLoop check).1 = true ∧ (verifyLoop check).2.1 = k + 1) ∧
    (verifyLoop exampleCheck).2.1 = 3 ∧
    (bought_run midRunView exampleEnv).outcome = .delivered ∧
    (bought_run midRunView exampleEnv).checkCalls = 3 := by
  refine ⟨fun check => verifyLoopAux_calls_le check 5 0, ?_, by decide, by decide, by decide⟩
  intro check k hk hck hbefore
  have := verifyLoopAux_first_true check 5 0 k (Nat.zero_le k) (by omega)
    (fun j _ hj => hbefore j hj) hck
  refine ⟨this.1, ?_⟩
  unfold verifyLoop
  rw [this.2]
  omega

/-- C1 witness: the early-stop clause applied to the concrete sequence
NotOwned, NotOwned, Owned (first Owned at index 2): 3 calls, verified. -/
theorem verifyLoop_retry_policy_witness :
    (verifyLoop exampleCheck).1 = true ∧ (verifyLoop exampleCheck).2.1 = 2 + 1 :=
  verifyLoop_retry_policy.2.1 exampleCheck 2 (by decide) (by decide)
    (by intro j hj; interval_cases j <;> decide)

/-- C2: while the processing flag is true, a second "I Bought It" trigger
from the buyer is answered with the transient "already in progress" notice,
changes no state and makes no ownership-check call.  The first trigger sets
the flag in its synchronous prefix (before any await), so firing two
triggers back-to-back yields exactly one sequence of verification attempts:
the interleaved total of check calls equals that of the single run. -/
theorem bought_button_single_flight (v : ConfirmView) (env env2 : Env)
    (hp : v.is_processing = false) :
    bought_guard v v.userId =
      (some { v with is_processing := true }, [.verifyingNotice, .askUsernameNotice]) ∧
    bought_button { v with is_processing := true } v.userId env2 =
      ⟨{ v with is_processing := true }, [.alreadyProcessing], 0, .rejected⟩ ∧
    (bought_button v v.userId env).checkCalls =
      (bought_run { v with is_processing := true } env).checkCalls := by
  refine ⟨by simp [bought_guard, hp], by simp [bought_button, bought_guard], ?_⟩
  simp [bought_button, bought_guard, hp]

/-- C2 witness: instantiated at the example session (flag initially clear). -/
theorem bought_button_single_flight_witness :
    bought_button { exampleView with is_processing := true } exampleView.userId exampleEnv =
      ⟨{ exampleView with is_processing := true }, [.alreadyProcessing], 0, .rejected⟩ :=
  (bought_button_single_flight exampleView exampleEnv exampleEnv rfl).2.1

/-- C5: when account-name resolution yields no account id, the run ends in
Failed with the resolution-failure notice and the ownership check is invoked
zero times — no verification attempts are consumed. -/
theorem bought_run_resolve_fail (v : ConfirmView) (env : Env) (u : String)
    (hu : env.unexpectedError = false) (hw : env.wait = .message u)
    (hr : get_user_id_from_username env.usersResp = none) :
    bought_run v env =
      ⟨{ v with is_processing := false }, [.resolveFailNotice], 0, .failed⟩ := by
  unfold bought_run
  rw [hu, hw, hr]
  simp [pyFalsy]

/-- C5 witness: a run whose username lookup returns an empty `data` array. -/
theorem bought_run_resolve_fail_witness :
    bought_run exampleView ⟨.message "Bob", .payload (some []), examplePassResp, false⟩ =
      ⟨{ exampleView with is_processing := false }, [.resolveFailNotice], 0, .failed⟩ :=
  bought_run_resolve_fail exampleView _ "Bob" rfl rfl rfl

/-- C6: every interactive trigger — item selection, "I Bought It",
"Nevermind" — fired by an identity different from the session's buyer
identity is rejected with the "not for you" notice, changes no state, makes
no ownership-check call, creates no session and produces no other effect. -/
theorem unauthorized_triggers_rejected (v : ConfirmView) (ownerId uid : Nat)
    (env : Env) (items : List Item) (selected : String)
    (h : uid ≠ v.userId) (h2 : uid ≠ ownerId) :
    bought_button v uid env = ⟨v, [.notForYou], 0, .rejected⟩ ∧
    cancel_button v uid = (v, [.notForYou]) ∧
    select_callback ownerId uid items selected = (none, [.notForYou]) := by
  refine ⟨?_, ?_, ?_⟩
  · simp [bought_button, bought_guard, h]
  · simp [cancel_button, h]
  · simp [select_callback, h2]

/-- C6 witness: identity 2 triggering against the example session owned by
identity 1. -/
theorem unauthorized_triggers_rejected_witness :
    bought_button exampleView 2 exampleEnv = ⟨exampleView, [.notForYou], 0, .rejected⟩ ∧
    cancel_button exampleView 2 = (exampleView, [.notForYou]) ∧
    select_callback 1 2 [exampleItem] "Skin A" = (none, [.notForYou]) :=
  unauthorized_triggers_rejected exampleView 1 2 exampleEnv [exampleItem] "Skin A"
    (by decide) (by decide)

/-- C7: in every verification run the delivery send appears exactly once in
the effect sequence when the run's outcome is Delivered and zero times
otherwise — never zero and never more than once per run; and a run in which
the retry loop returns Owned (after a successful wait and resolution) ends
Delivered. -/
theorem delivered_exactly_once (v : ConfirmView) (env : Env) :
    ((bought_run v env).effects.filter isFileDelivery =
      if (bought_run v env).outcome = .delivered then [.fileDelivery v.item.file_url]
      else []) ∧
    (∀ u, env.unexpectedError = false → env.wait = .message u →
      pyFalsy (get_user_id_from_username env.usersResp) = false →
      (verifyLoop (fun n => check_gamepass_ownership (env.passResp n) v.item.gamepass_id)).1
        = true →
      (bought_run v env).outcome = .delivered) := by
  constructor
  · unfold bought_run
    rcases env with ⟨w, ur, pr, ue⟩
    cases ue
    · cases w
      · simp [isFileDelivery]
      · simp only [Bool.false_eq_true, if_false]
        split
        · simp [isFileDelivery]
        · split
          · simp [List.filter_append, isFileDelivery, verifyLoop,
              verifyLoopAux_no_delivery]
          · rename_i hv
            simp only [Bool.not_eq_true] at hv
            simp [List.filter_append, isFileDelivery, verifyLoop,
              verifyLoopAux_no_delivery]
    · simp [isFileDelivery]
  · intro u hu hw hr hv
    unfold bought_run
    rw [hu, hw]
    simp [hr, hv]

/-- C7 witness: the end-to-end scenario run delivers, and its effect list
contains the delivery send exactly once. -/
theorem delivered_exactly_once_witness :
    (bought_run exampleView exampleEnv).outcome = .delivered ∧
    (bought_run exampleView exampleEnv).effects.filter isFileDelivery =
      [.fileDelivery exampleView.item.file_url] := by
  have h2 := (delivered_exactly_once exampleView exampleEnv).2 "Bob" rfl rfl
    (by decide) (by decide)
  have h1 := (delivered_exactly_once exampleView exampleEnv).1
  rw [h2] at h1
  exact ⟨h2, by simpa using h1⟩

/-- C8 counterexample: a run that exhausts its five attempts ends in the
terminal state Failed, yet the interactive controls are NOT disabled — the
claim that every terminal state disables the controls on entry fails on the
Failed (and TimedOut) paths. -/
theorem terminal_disable_counterexample :
    (bought_run exampleView failEnv).outcome = .failed ∧
    (bought_run exampleView failEnv).view.childrenDisabled = false := by
  decide

/-- C8 amended: a verification run disables the originating controls exactly
when it ends Delivered (otherwise it leaves them as they were, so Failed,
TimedOut and error exits keep them enabled for another attempt), and an
authorized "Nevermind" press disables them on entering Cancelled. -/
theorem controls_disabled_only_delivered_or_cancelled (v : ConfirmView) (env : Env)
    (uid : Nat) :
    ((bought_run v env).view.childrenDisabled =
      (v.childrenDisabled || ((bought_run v env).outcome == .delivered))) ∧
    (uid = v.userId → (cancel_button v uid).1.childrenDisabled = true) := by
  constructor
  · unfold bought_run
    rcases env with ⟨w, ur, pr, ue⟩
    cases ue
    · cases w
      · simp
      · simp only [Bool.false_eq_true, if_false]
        split
        · simp
        · split <;> simp
    · simp
  · intro h
    simp [cancel_button, h]

/-- C8 amended witness: the delivered end-to-end run has its controls
disabled, and the buyer's cancel press disables them. -/
theorem controls_disabled_only_delivered_or_cancelled_witness :
    (bought_run exampleView exampleEnv).view.childrenDisabled =
      (exampleView.childrenDisabled ||
        ((bought_run exampleView exampleEnv).outcome == .delivered)) ∧
    (cancel_button exampleView 1).1.childrenDisabled = true :=
  ⟨(controls_disabled_only_delivered_or_cancelled exampleView exampleEnv 1).1,
    (controls_disabled_only_delivered_or_cancelled exampleView exampleEnv 1).2 rfl⟩

/-- C9 counterexample: with a verification run in flight (the session is in
Verifying, not Pending), an authorized "Nevermind" press still executes its
cancellation transition — it sends the cancellation notice and disables the
controls — so the trigger is not restricted to state Pending. -/
theorem cancel_mid_run_counterexample :
    midRunView.is_processing = true ∧
    cancel_button midRunView midRunView.userId =
      ({ midRunView with childrenDisabled := true }, [.cancelledNotice]) := by
  decide

/-- C9 amended: an authorized "Nevermind" press always sends the
cancellation notice and disables the controls, in any state; however it
never cancels or alters an in-flight verification run: it leaves the
processing flag and the item untouched, and the run — which is insensitive
to the one field the press changes — proceeds to its own completion with
identical outcome, ownership-call count and messages. -/
theorem cancel_never_alters_run (v : ConfirmView) (uid : Nat) (env : Env) (b : Bool) :
    ((cancel_button v uid).1.is_processing = v.is_processing) ∧
    ((cancel_button v uid).1.item = v.item) ∧
    (uid = v.userId →
      cancel_button v uid = ({ v with childrenDisabled := true }, [.cancelledNotice])) ∧
    ((bought_run { v with childrenDisabled := b } env).outcome =
        (bought_run v env).outcome ∧
      (bought_run { v with childrenDisabled := b } env).checkCalls =
        (bought_run v env).checkCalls ∧
      (bought_run { v with childrenDisabled := b } env).effects =
        (bought_run v env).effects) := by
  refine ⟨?_, ?_, ?_, ?_⟩
  · unfold cancel_button; split <;> simp
  · unfold cancel_button; split <;> simp
  · intro h; simp [cancel_button, h]
  · unfold bought_run
    rcases env with ⟨w, ur, pr, ue⟩
    cases ue
    · cases w
      · simp
      · simp only [Bool.false_eq_true, if_false]
        split
        · simp
        · split <;> simp
    · simp

/-- C9 amended witness: instantiated at the in-flight example session. -/
theorem cancel_never_alters_run_witness :
    cancel_button midRunView midRunView.userId =
      ({ midRunView with childrenDisabled := true }, [.cancelledNotice]) :=
  (cancel_never_alters_run midRunView midRunView.userId exampleEnv true).2.2.1 rfl

/-- C10: one ownership check issues exactly one listing request with page
size 100 and scans only that response, never following further pages, so it
reports Owned exactly when a match occurs within the first `listingPageSize`
entries; in particular, whenever no entry of the first page matches, the
result is NotOwned regardless of what the account owns beyond it — witnessed
by an account whose only matching pass is its 101st. -/
theorem single_page_scan :
    listingRequestCount = 1 ∧ listingPageSize = 100 ∧
    (∀ (owned : List PyVal) (id : PyVal),
        check_ownership_via_first_page owned id = true ↔
          ∃ gp ∈ owned.take listingPageSize, pyStr gp = pyStr id) ∧
    (∀ (owned : List PyVal) (id : PyVal),
        (∀ gp ∈ owned.take listingPageSize, pyStr gp ≠ pyStr id) →
        check_ownership_via_first_page owned id = false) ∧
    (check_ownership_via_first_page beyondPageList (.vInt 999) = false ∧
      ∃ gp ∈ beyondPageList, pyStr gp = pyStr (.vInt 999)) := by
  have hiff : ∀ (owned : List PyVal) (id : PyVal),
      check_ownership_via_first_page owned id = true ↔
        ∃ gp ∈ owned.take listingPageSize, pyStr gp = pyStr id := by
    intro owned id
    simp [check_ownership_via_first_page, firstPageResponse, check_gamepass_ownership,
      List.any_eq_true]
  refine ⟨rfl, rfl, hiff, ?_, by decide, ?_⟩
  · intro owned id h
    rcases hfalse : check_ownership_via_first_page owned id with _ | _
    · rfl
    · rcases (hiff owned id).mp hfalse with ⟨gp, hmem, heq⟩
      exact absurd heq (h gp hmem)
  · exact ⟨.vInt 999, by decide, rfl⟩

/-- C10 witness: the no-match-on-first-page clause applied to the concrete
account owning 101 passes whose only match is beyond the fetched page. -/
theorem single_page_scan_witness :
    check_ownership_via_first_page beyondPageList (.vInt 999) = false :=
  single_page_scan.2.2.2.1 beyondPageList (.vInt 999) (by decide)
